import Mathlib

/-!
Verification of `tensorflow/compiler/xla/service/gpu/gpu_fused_mha_runner.h`.

Shallow embedding of the fused multi-headed-attention (fMHA) runner layer:
the attention descriptor, the normalized configuration, the parameter
binder, and the `FusedMultiHeadedAttentionRunner` variant selector with its
narrowing accessors.  Fatal `CHECK` failures are modelled as `Option`
results (`none` = process abort); recoverable `StatusOr` results are
modelled as `Except String`.
-/

set_option autoImplicit false

namespace XlaGpu

/-- Modelled from the spec: `xla::PrimitiveType` (xla_data.pb.h, not under
src/) — the numeric element type of a tensor. A representative subset of
the enumeration suffices for this layer, which only copies the type. -/
inductive PrimitiveType where
  | F16
  | BF16
  | F32
  | F64
  | PRED
  | S32
  deriving DecidableEq

/-- Modelled from the spec: `xla::Shape` (not under src/) — an element type
plus a list of dimension extents, as consumed by the descriptor. -/
structure Shape where
  element_type : PrimitiveType
  dimensions : List Nat
  deriving DecidableEq

/-- Modelled from the spec: `xla::DotDimensionNumbers` (not under src/) — a
mapping identifying which tensor axes are batch and contracting dimensions
for each side of a batched matmul. -/
structure DotDimensionNumbers where
  lhs_batch_dimensions : List Nat
  rhs_batch_dimensions : List Nat
  lhs_contracting_dimensions : List Nat
  rhs_contracting_dimensions : List Nat
  deriving DecidableEq

/-- Modelled from the spec: `CudnnfMHAKind` is declared in
`cublas_cudnn.h`, which is not under src/.  The spec calls the taxonomy a
closed enumeration; its members are exactly the nine enumerators named by
the exhaustive switch in `FusedMultiHeadedAttentionRunner::CreateRunner`
(gpu_fused_mha_runner.h lines 198-222). -/
inductive CudnnfMHAKind where
  | kBmmBmm
  | kScaleBiasMaskSoftmax
  | kScaleBiasMaskSoftmaxDropout
  | kScaleMaskSoftmax
  | kScaleMaskSoftmaxDropout
  | kScaleBiasSoftmaxDropout
  | kScaleBiasSoftmax
  | kSoftmaxDropout
  | kSoftmax
  deriving DecidableEq

/-- Modelled from the spec: which kinds of the taxonomy carry a mask
operand — the `ScaleMask` and `ScaleBiasMask` sub-families ("optional
shapes present iff the variant requires them"). -/
def CudnnfMHAKind.requiresMask : CudnnfMHAKind → Bool
  | .kScaleMaskSoftmax => true
  | .kScaleMaskSoftmaxDropout => true
  | .kScaleBiasMaskSoftmax => true
  | .kScaleBiasMaskSoftmaxDropout => true
  | _ => false

/-- Modelled from the spec: which kinds of the taxonomy carry a bias
operand — the `ScaleBias` and `ScaleBiasMask` sub-families. -/
def CudnnfMHAKind.requiresBias : CudnnfMHAKind → Bool
  | .kScaleBiasSoftmax => true
  | .kScaleBiasSoftmaxDropout => true
  | .kScaleBiasMaskSoftmax => true
  | .kScaleBiasMaskSoftmaxDropout => true
  | _ => false

/-- Modelled from the spec: which kinds of the taxonomy are
dropout-bearing ("dropout is a runtime parameter of the plan, not a
separate plan type"). -/
def CudnnfMHAKind.hasDropout : CudnnfMHAKind → Bool
  | .kSoftmaxDropout => true
  | .kScaleBiasSoftmaxDropout => true
  | .kScaleMaskSoftmaxDropout => true
  | .kScaleBiasMaskSoftmaxDropout => true
  | _ => false

/-- Modelled from the spec: which kinds of the taxonomy carry a scale
parameter — every kind except the plain bmm-bmm/softmax(+dropout) ones. -/
def CudnnfMHAKind.hasScale : CudnnfMHAKind → Bool
  | .kBmmBmm => false
  | .kSoftmax => false
  | .kSoftmaxDropout => false
  | _ => true

/-- Modelled from the spec: `CudnnfMHABackendConfig` (backend_configs.pb.h,
not under src/) — the backend parameter blob carrying scale, dropout rate
and seed ("blob with scale/dropout/seed"). -/
structure CudnnfMHABackendConfig where
  fmha_scale : Float
  dropout_rate : Float
  seed : Int

/-- Modelled from the spec: `se::dnn::AlgorithmDesc` (stream_executor, not
under src/) — the execution algorithm identifier a plan is keyed by. -/
structure AlgorithmDesc where
  algo_id : Nat
  deriving DecidableEq

/-- Modelled from the spec: `se::dnn::TensorDescriptor` (stream_executor,
not under src/) — a "layout-independent semantic shape plus element type"
(spec section 4.1). -/
structure TensorDescriptor where
  type : PrimitiveType
  dimensions : List Nat
  deriving DecidableEq

/-- Modelled from the spec: `se::dnn::MatmulTensorDescriptor`
(stream_executor, not under src/) — a tensor descriptor annotated with the
batch and contracting axes of its matmul side. -/
structure MatmulTensorDescriptor where
  type : PrimitiveType
  dimensions : List Nat
  batch_dimensions : List Nat
  contracting_dimensions : List Nat
  deriving DecidableEq

/-- GpufMHADescriptor (gpu_fused_mha_runner.h lines 41-54): the interim
structure holding the parameters to construct a GpufMHAConfig. -/
structure GpufMHADescriptor where
  kind : CudnnfMHAKind
  backend_config : CudnnfMHABackendConfig
  lhs_bmm1_shape : Shape
  rhs_bmm1_shape : Shape
  rhs_bmm2_shape : Shape
  intermediate_lhs_bmm2_shape : Shape
  output_shape : Shape
  bmm1_dnums : DotDimensionNumbers
  bmm2_dnums : DotDimensionNumbers
  mask_shape : Option Shape
  bias_shape : Option Shape

/-- GpufMHAConfig (gpu_fused_mha_runner.h lines 58-80): the immutable,
validated configuration of one fused-MHA operation. -/
structure GpufMHAConfig where
  input_type : PrimitiveType
  output_type : PrimitiveType
  kind : CudnnfMHAKind
  fmha_scale : Option Float
  dropout_rate : Option Float
  seed : Option Int
  algorithm : AlgorithmDesc
  lhs_bmm1 : MatmulTensorDescriptor
  rhs_bmm1 : MatmulTensorDescriptor
  rhs_bmm2 : MatmulTensorDescriptor
  intermediate_lhs_bmm2 : MatmulTensorDescriptor
  output : TensorDescriptor
  mask : Option TensorDescriptor
  bias : Option TensorDescriptor

/-- Modelled from the spec: dimension-number consistency for one matmul
side (spec section 4.1 — "fails if dimension-number counts are
inconsistent with shape rank"). -/
def dnumsConsistent (shape : Shape) (batch_dims contracting_dims : List Nat) : Bool :=
  decide (batch_dims.length + contracting_dims.length ≤ shape.dimensions.length)
    && (batch_dims ++ contracting_dims).all (fun d => decide (d < shape.dimensions.length))

/-- Modelled from the spec: `se::dnn::MatmulTensorDescriptor::For` (spec
section 4.1 Tensor/Dimension Descriptor Builder) — derive a canonical
operand descriptor from a shape and its side of the dimension numbers;
fail if the dimension-number counts are inconsistent with the rank. -/
def MatmulTensorDescriptor.For (shape : Shape) (batch_dims contracting_dims : List Nat) :
    Except String MatmulTensorDescriptor :=
  if dnumsConsistent shape batch_dims contracting_dims then
    .ok ⟨shape.element_type, shape.dimensions, batch_dims, contracting_dims⟩
  else
    .error "dimension numbers inconsistent with shape rank"

/-- Modelled from the spec: `se::dnn::TensorDescriptor::For` — the plain
(non-matmul) operand descriptor for the output tensor. -/
def TensorDescriptor.For (shape : Shape) : TensorDescriptor :=
  ⟨shape.element_type, shape.dimensions⟩

/-- Modelled from the spec: the "single well-known default" execution
algorithm identifier selected by the Configuration Normalizer (spec
section 4.2), since the kernel family offers one algorithm. -/
def defaultAlgorithm : AlgorithmDesc :=
  ⟨0⟩

/-- Modelled from the spec: `GpufMHAConfig::For` (declared at
gpu_fused_mha_runner.h line 59; its body lives in the .cc file, which is
not under src/).  Per spec section 4.2: validates that the optional
mask/bias shapes are present exactly when the variant kind requires them
(failing with a missing/unexpected-operand error otherwise), extracts the
element types from the primary operand and output shapes, copies
scale/dropout/seed from the backend blob as optionals (absent means "not
applicable to this variant"), selects the default algorithm, and builds
the operand descriptors; any inconsistency fails and no partial Config is
returned. -/
def GpufMHAConfig.For (desc : GpufMHADescriptor) : Except String GpufMHAConfig :=
  if desc.kind.requiresMask && desc.mask_shape.isNone then
    .error "missing mask shape for mask-bearing variant"
  else if !desc.kind.requiresMask && desc.mask_shape.isSome then
    .error "unexpected mask shape for maskless variant"
  else if desc.kind.requiresBias && desc.bias_shape.isNone then
    .error "missing bias shape for bias-bearing variant"
  else if !desc.kind.requiresBias && desc.bias_shape.isSome then
    .error "unexpected bias shape for biasless variant"
  else
    match MatmulTensorDescriptor.For desc.lhs_bmm1_shape
        desc.bmm1_dnums.lhs_batch_dimensions desc.bmm1_dnums.lhs_contracting_dimensions,
      MatmulTensorDescriptor.For desc.rhs_bmm1_shape
        desc.bmm1_dnums.rhs_batch_dimensions desc.bmm1_dnums.rhs_contracting_dimensions,
      MatmulTensorDescriptor.For desc.rhs_bmm2_shape
        desc.bmm2_dnums.rhs_batch_dimensions desc.bmm2_dnums.rhs_contracting_dimensions,
      MatmulTensorDescriptor.For desc.intermediate_lhs_bmm2_shape
        desc.bmm2_dnums.lhs_batch_dimensions desc.bmm2_dnums.lhs_contracting_dimensions with
    | .error e, _, _, _ => .error e
    | _, .error e, _, _ => .error e
    | _, _, .error e, _ => .error e
    | _, _, _, .error e => .error e
    | .ok lhs_bmm1, .ok rhs_bmm1, .ok rhs_bmm2, .ok intermediate_lhs_bmm2 => .ok
      { input_type := desc.lhs_bmm1_shape.element_type
        output_type := desc.output_shape.element_type
        kind := desc.kind
        fmha_scale := if desc.kind.hasScale then some desc.backend_config.fmha_scale else none
        dropout_rate := if desc.kind.hasDropout then some desc.backend_config.dropout_rate else none
        seed := if desc.kind.hasDropout then some desc.backend_config.seed else none
        algorithm := defaultAlgorithm
        lhs_bmm1 := lhs_bmm1
        rhs_bmm1 := rhs_bmm1
        rhs_bmm2 := rhs_bmm2
        intermediate_lhs_bmm2 := intermediate_lhs_bmm2
        output := TensorDescriptor.For desc.output_shape
        mask := desc.mask_shape.map TensorDescriptor.For
        bias := desc.bias_shape.map TensorDescriptor.For }

/-- Modelled from the spec: `se::DeviceMemoryBase` (stream_executor, not
under src/) — a non-owning device-memory handle; a default (zero) base
address is the null handle, the convention by which an "absent" optional
buffer is passed. -/
structure DeviceMemoryBase where
  base_addr : Nat
  size : Nat
  deriving DecidableEq

/-- The null test on a device-memory handle. -/
def DeviceMemoryBase.is_null (b : DeviceMemoryBase) : Bool :=
  b.base_addr == 0

/-- GpufMHAParams (gpu_fused_mha_runner.h lines 83-99): one execution's
binding of a config to concrete device buffers.  The C++ `config` member
is a non-owning pointer; it is embedded by value here. -/
structure GpufMHAParams where
  config : GpufMHAConfig
  lhs_bmm1_buffer : DeviceMemoryBase
  rhs_bmm1_buffer : DeviceMemoryBase
  rhs_bmm2_buffer : DeviceMemoryBase
  output_buffer : DeviceMemoryBase
  mask_buffer : Option DeviceMemoryBase
  bias_buffer : Option DeviceMemoryBase

/-- Modelled from the spec: `GpufMHAParams::For` (declared at
gpu_fused_mha_runner.h lines 84-90; its body lives in the .cc file, which
is not under src/).  Per spec section 4.3: an optional buffer handle must
be present (non-null) iff the corresponding optional descriptor is present
in the config; a mismatch fails with a buffer/variant-mismatch error; on
success the params hold the config reference, the four required buffers,
and the optional buffers mirroring the config's optional descriptors. -/
def GpufMHAParams.For (config : GpufMHAConfig)
    (lhs_bmm1_buffer rhs_bmm1_buffer rhs_bmm2_buffer output_buffer
      mask_buffer bias_buffer : DeviceMemoryBase) : Except String GpufMHAParams :=
  if config.mask.isSome && mask_buffer.is_null then
    .error "mask buffer is null when the config has a mask descriptor"
  else if !config.mask.isSome && !mask_buffer.is_null then
    .error "mask buffer supplied but the config has no mask descriptor"
  else if config.bias.isSome && bias_buffer.is_null then
    .error "bias buffer is null when the config has a bias descriptor"
  else if !config.bias.isSome && !bias_buffer.is_null then
    .error "bias buffer supplied but the config has no bias descriptor"
  else
    .ok
      { config := config
        lhs_bmm1_buffer := lhs_bmm1_buffer
        rhs_bmm1_buffer := rhs_bmm1_buffer
        rhs_bmm2_buffer := rhs_bmm2_buffer
        output_buffer := output_buffer
        mask_buffer := if config.mask.isSome then some mask_buffer else none
        bias_buffer := if config.bias.isSome then some bias_buffer else none }

/-- Modelled from the spec: `se::dnn::LazyOpRunner<Op>` (stream_executor,
not under src/) — a lazily-materialized execution plan; it records the
algorithm identifier it was constructed with, and its `ToAlgorithmDesc`
returns that identifier.  In the C++ the `Op` tag is a template parameter;
here the tag lives on the variant constructor holding the runner. -/
structure LazyOpRunner where
  algorithm : AlgorithmDesc
  deriving DecidableEq

/-- `LazyOpRunner::ToAlgorithmDesc`: the algorithm the plan was
constructed with. -/
def LazyOpRunner.ToAlgorithmDesc (r : LazyOpRunner) : AlgorithmDesc :=
  r.algorithm

/-- FusedMultiHeadedAttentionRunner::Repr (gpu_fused_mha_runner.h lines
103-111): `std::variant` over `std::monostate` and the four plan-family
`LazyOpRunner` alternatives, in declaration order. -/
inductive FusedMultiHeadedAttentionRunner.Repr where
  | monostate
  | fusedMHASoftmax (runner : LazyOpRunner)
  | fusedMHAScaleMaskSoftmax (runner : LazyOpRunner)
  | fusedMHAScaleBiasSoftmax (runner : LazyOpRunner)
  | fusedMHAScaleBiasMaskSoftmax (runner : LazyOpRunner)
  deriving DecidableEq

/-- `std::holds_alternative<std::monostate>(repr_)` as a tag test. -/
def FusedMultiHeadedAttentionRunner.Repr.holds_monostate :
    FusedMultiHeadedAttentionRunner.Repr → Bool
  | .monostate => true
  | _ => false

/-- The four concrete plan families of spec section 4.4. -/
inductive PlanFamily where
  | softmax
  | scaleMaskSoftmax
  | scaleBiasSoftmax
  | scaleBiasMaskSoftmax
  deriving DecidableEq

/-- Which concrete plan family (if any) a Repr holds; `none` for the
uninitialized monostate alternative. -/
def FusedMultiHeadedAttentionRunner.Repr.family :
    FusedMultiHeadedAttentionRunner.Repr → Option PlanFamily
  | .monostate => none
  | .fusedMHASoftmax _ => some .softmax
  | .fusedMHAScaleMaskSoftmax _ => some .scaleMaskSoftmax
  | .fusedMHAScaleBiasSoftmax _ => some .scaleBiasSoftmax
  | .fusedMHAScaleBiasMaskSoftmax _ => some .scaleBiasMaskSoftmax

/-- FusedMultiHeadedAttentionRunner (gpu_fused_mha_runner.h lines
101-236): holds the `Repr` variant in its `repr_` member. -/
structure FusedMultiHeadedAttentionRunner where
  repr_ : FusedMultiHeadedAttentionRunner.Repr
  deriving DecidableEq

namespace FusedMultiHeadedAttentionRunner

/-- The default constructor (line 113): `repr_` is value-initialized, so
the variant holds `std::monostate`. -/
def mkDefault : FusedMultiHeadedAttentionRunner :=
  ⟨.monostate⟩

/-- The constructor taking a `Repr` directly (lines 137-138): stores the
variant unconditionally, with no monostate check. -/
def ofRepr (runner : Repr) : FusedMultiHeadedAttentionRunner :=
  ⟨runner⟩

/-- CreateRunner (lines 198-222): the exhaustive switch over
`config.kind`, building a `LazyOpRunner` of the matching plan family from
`config.algorithm`. -/
def CreateRunner (config : GpufMHAConfig) : Repr :=
  match config.kind with
  | .kBmmBmm => .fusedMHASoftmax ⟨config.algorithm⟩
  | .kSoftmaxDropout => .fusedMHASoftmax ⟨config.algorithm⟩
  | .kSoftmax => .fusedMHASoftmax ⟨config.algorithm⟩
  | .kScaleBiasSoftmax => .fusedMHAScaleBiasSoftmax ⟨config.algorithm⟩
  | .kScaleBiasSoftmaxDropout => .fusedMHAScaleBiasSoftmax ⟨config.algorithm⟩
  | .kScaleMaskSoftmax => .fusedMHAScaleMaskSoftmax ⟨config.algorithm⟩
  | .kScaleMaskSoftmaxDropout => .fusedMHAScaleMaskSoftmax ⟨config.algorithm⟩
  | .kScaleBiasMaskSoftmax => .fusedMHAScaleBiasMaskSoftmax ⟨config.algorithm⟩
  | .kScaleBiasMaskSoftmaxDropout => .fusedMHAScaleBiasMaskSoftmax ⟨config.algorithm⟩

/-- The monostate guard of the config-taking constructor (lines 142-145):
`CHECK(false)` when the stored variant holds monostate, modelled as
`none` (process abort). -/
def checkNonMonostate (r : FusedMultiHeadedAttentionRunner) :
    Option FusedMultiHeadedAttentionRunner :=
  if r.repr_.holds_monostate then none else some r

/-- The constructor taking a `GpufMHAConfig` (lines 140-146): delegates to
the `Repr` constructor on `CreateRunner(config)`, then CHECK-fails if the
result holds monostate. -/
def ofConfig (config : GpufMHAConfig) : Option FusedMultiHeadedAttentionRunner :=
  checkNonMonostate (ofRepr (CreateRunner config))

/-- ToAlgorithmDesc (lines 148-150, 224-233): `std::visit` with
`ToAlgorithmDescVisitor`, which forwards to the held runner's
`ToAlgorithmDesc` and CHECK-fails (`none`) on monostate. -/
def ToAlgorithmDesc (r : FusedMultiHeadedAttentionRunner) : Option AlgorithmDesc :=
  match r.repr_ with
  | .monostate => none
  | .fusedMHASoftmax p => some p.ToAlgorithmDesc
  | .fusedMHAScaleMaskSoftmax p => some p.ToAlgorithmDesc
  | .fusedMHAScaleBiasSoftmax p => some p.ToAlgorithmDesc
  | .fusedMHAScaleBiasMaskSoftmax p => some p.ToAlgorithmDesc

/-- AsFusedMHASoftmaxRunner (lines 152-160): CHECK that the variant holds
the `FusedMHASoftmaxOp` alternative (`none` on failure), then return the
held plan. -/
def AsFusedMHASoftmaxRunner (r : FusedMultiHeadedAttentionRunner) : Option LazyOpRunner :=
  match r.repr_ with
  | .fusedMHASoftmax p => some p
  | _ => none

/-- AsFusedMHAMaskRunner (lines 162-170): CHECK that the variant holds the
`FusedMHAScaleMaskSoftmaxOp` alternative, then return the held plan. -/
def AsFusedMHAMaskRunner (r : FusedMultiHeadedAttentionRunner) : Option LazyOpRunner :=
  match r.repr_ with
  | .fusedMHAScaleMaskSoftmax p => some p
  | _ => none

/-- AsFusedMHABiasMaskRunner (lines 172-180): CHECK that the variant holds
the `FusedMHAScaleBiasMaskSoftmaxOp` alternative, then return the held
plan. -/
def AsFusedMHABiasMaskRunner (r : FusedMultiHeadedAttentionRunner) : Option LazyOpRunner :=
  match r.repr_ with
  | .fusedMHAScaleBiasMaskSoftmax p => some p
  | _ => none

/-- AsFusedMHABiasRunner (lines 182-190): CHECK that the variant holds the
`FusedMHAScaleBiasSoftmaxOp` alternative, then return the held plan. -/
def AsFusedMHABiasRunner (r : FusedMultiHeadedAttentionRunner) : Option LazyOpRunner :=
  match r.repr_ with
  | .fusedMHAScaleBiasSoftmax p => some p
  | _ => none

end FusedMultiHeadedAttentionRunner

/-- The observable operations on a constructed runner (spec section 4.4):
the polymorphic `ToAlgorithmDesc` and the four narrowing accessors. -/
inductive RunnerMethod where
  | toAlgorithmDesc
  | asFusedMHASoftmaxRunner
  | asFusedMHAMaskRunner
  | asFusedMHABiasRunner
  | asFusedMHABiasMaskRunner
  deriving DecidableEq

/-- One method call as a state transformer: the result together with the
post-state of the runner.  Each method body only reads `repr_` (the C++
methods never assign to it), so the post-state is the receiver itself.  -/
def FusedMultiHeadedAttentionRunner.callMethod
    (r : FusedMultiHeadedAttentionRunner) :
    RunnerMethod → Option (AlgorithmDesc ⊕ LazyOpRunner) × FusedMultiHeadedAttentionRunner
  | .toAlgorithmDesc => ((r.ToAlgorithmDesc).map Sum.inl, r)
  | .asFusedMHASoftmaxRunner => ((r.AsFusedMHASoftmaxRunner).map Sum.inr, r)
  | .asFusedMHAMaskRunner => ((r.AsFusedMHAMaskRunner).map Sum.inr, r)
  | .asFusedMHABiasRunner => ((r.AsFusedMHABiasRunner).map Sum.inr, r)
  | .asFusedMHABiasMaskRunner => ((r.AsFusedMHABiasMaskRunner).map Sum.inr, r)

/-- The runner state after a sequence of method calls. -/
def FusedMultiHeadedAttentionRunner.callSequence
    (r : FusedMultiHeadedAttentionRunner) (ops : List RunnerMethod) :
    FusedMultiHeadedAttentionRunner :=
  ops.foldl (fun s op => (s.callMethod op).2) r

/-! Concrete sample values used by the witness theorems. -/

/-- A concrete rank-4 shape. -/
def sampleShape : Shape :=
  ⟨.F16, [2, 3, 4, 5]⟩

/-- Concrete dimension numbers consistent with `sampleShape`. -/
def sampleDnums : DotDimensionNumbers :=
  ⟨[0, 1], [0, 1], [3], [3]⟩

/-- A concrete backend parameter blob. -/
def sampleBackendConfig : CudnnfMHABackendConfig :=
  ⟨0.5, 0.1, 42⟩

/-- A concrete matmul operand descriptor. -/
def sampleMatmulDesc : MatmulTensorDescriptor :=
  ⟨.F16, [2, 3, 4, 5], [0, 1], [3]⟩

/-- A concrete descriptor of the given kind with the given optional
shapes. -/
def sampleDescriptor (kind : CudnnfMHAKind) (mask_shape bias_shape : Option Shape) :
    GpufMHADescriptor :=
  { kind := kind
    backend_config := sampleBackendConfig
    lhs_bmm1_shape := sampleShape
    rhs_bmm1_shape := sampleShape
    rhs_bmm2_shape := sampleShape
    intermediate_lhs_bmm2_shape := sampleShape
    output_shape := sampleShape
    bmm1_dnums := sampleDnums
    bmm2_dnums := sampleDnums
    mask_shape := mask_shape
    bias_shape := bias_shape }

/-- A concrete configuration of the given kind (not necessarily one
produced by `GpufMHAConfig.For`; `CreateRunner` accepts any config). -/
def sampleConfig (kind : CudnnfMHAKind) : GpufMHAConfig :=
  { input_type := .F16
    output_type := .F16
    kind := kind
    fmha_scale := none
    dropout_rate := none
    seed := none
    algorithm := ⟨7⟩
    lhs_bmm1 := sampleMatmulDesc
    rhs_bmm1 := sampleMatmulDesc
    rhs_bmm2 := sampleMatmulDesc
    intermediate_lhs_bmm2 := sampleMatmulDesc
    output := ⟨.F16, [2, 3, 4, 5]⟩
    mask := none
    bias := none }

/-- The configuration `GpufMHAConfig.For` produces from
`sampleDescriptor .kSoftmax none none`. -/
def sampleOkConfig : GpufMHAConfig :=
  { input_type := .F16
    output_type := .F16
    kind := .kSoftmax
    fmha_scale := none
    dropout_rate := none
    seed := none
    algorithm := ⟨0⟩
    lhs_bmm1 := sampleMatmulDesc
    rhs_bmm1 := sampleMatmulDesc
    rhs_bmm2 := sampleMatmulDesc
    intermediate_lhs_bmm2 := sampleMatmulDesc
    output := ⟨.F16, [2, 3, 4, 5]⟩
    mask := none
    bias := none }

/-- The null device-memory handle (absent optional buffer). -/
def nullBuf : DeviceMemoryBase :=
  ⟨0, 0⟩

/-- A concrete non-null device-memory handle. -/
def someBuf : DeviceMemoryBase :=
  ⟨4096, 1024⟩

open FusedMultiHeadedAttentionRunner

/-- Claim C1: for every GpufMHAConfig, CreateRunner maps the config's kind
to exactly one of the four plan families: kBmmBmm, kSoftmax and
kSoftmaxDropout produce a FusedMHASoftmaxOp runner; kScaleBiasSoftmax and
kScaleBiasSoftmaxDropout a FusedMHAScaleBiasSoftmaxOp runner;
kScaleMaskSoftmax and kScaleMaskSoftmaxDropout a FusedMHAScaleMaskSoftmaxOp
runner; kScaleBiasMaskSoftmax and kScaleBiasMaskSoftmaxDropout a
FusedMHAScaleBiasMaskSoftmaxOp runner. -/
theorem claim_C1 (config : GpufMHAConfig) :
    ((config.kind = .kBmmBmm ∨ config.kind = .kSoftmax ∨ config.kind = .kSoftmaxDropout) →
      (CreateRunner config).family = some .softmax) ∧
    ((config.kind = .kScaleBiasSoftmax ∨ config.kind = .kScaleBiasSoftmaxDropout) →
      (CreateRunner config).family = some .scaleBiasSoftmax) ∧
    ((config.kind = .kScaleMaskSoftmax ∨ config.kind = .kScaleMaskSoftmaxDropout) →
      (CreateRunner config).family = some .scaleMaskSoftmax) ∧
    ((config.kind = .kScaleBiasMaskSoftmax ∨ config.kind = .kScaleBiasMaskSoftmaxDropout) →
      (CreateRunner config).family = some .scaleBiasMaskSoftmax) := by
  obtain ⟨it, ot, kind, fs, dr, sd, alg, l1, r1, r2, il2, o, mk, bs⟩ := config
  cases kind <;>
    simp [CreateRunner, FusedMultiHeadedAttentionRunner.Repr.family]

/-- Witness for C1 at concrete configs of each family. -/
theorem claim_C1_witness :
    (CreateRunner (sampleConfig .kSoftmax)).family = some .softmax ∧
    (CreateRunner (sampleConfig .kScaleBiasSoftmax)).family = some .scaleBiasSoftmax ∧
    (CreateRunner (sampleConfig .kScaleMaskSoftmax)).family = some .scaleMaskSoftmax ∧
    (CreateRunner (sampleConfig .kScaleBiasMaskSoftmax)).family = some .scaleBiasMaskSoftmax :=
  ⟨(claim_C1 _).1 (Or.inr (Or.inl rfl)),
   (claim_C1 _).2.1 (Or.inl rfl),
   (claim_C1 _).2.2.1 (Or.inl rfl),
   (claim_C1 _).2.2.2 (Or.inl rfl)⟩

/-- Claim C2: CreateRunner is total over the CudnnfMHAKind enumeration —
no kind leaves the variant in the monostate alternative — and a repr that
does hold monostate makes construction CHECK-fail (fatal, modelled as
`none`) rather than yield a runner. -/
theorem claim_C2 :
    (∀ config : GpufMHAConfig, (CreateRunner config).holds_monostate = false) ∧
    (∀ r : FusedMultiHeadedAttentionRunner.Repr, r.holds_monostate = true →
      checkNonMonostate (ofRepr r) = none) := by
  constructor
  · intro config
    obtain ⟨it, ot, kind, fs, dr, sd, alg, l1, r1, r2, il2, o, mk, bs⟩ := config
    cases kind <;> rfl
  · intro r h
    simp [checkNonMonostate, ofRepr, h]

/-- Witness for C2: the kBmmBmm config and the monostate repr. -/
theorem claim_C2_witness :
    (CreateRunner (sampleConfig .kBmmBmm)).holds_monostate = false ∧
    checkNonMonostate (ofRepr .monostate) = none :=
  ⟨claim_C2.1 (sampleConfig .kBmmBmm), claim_C2.2 .monostate rfl⟩

/-- Claim C3: for every config, the runner built via CreateRunner is such
that exactly one of the four narrowing accessors succeeds and returns the
held plan, while the other three CHECK-fail (modelled as `none`). -/
theorem claim_C3 (config : GpufMHAConfig) :
    ∃ r, ofConfig config = some r ∧
      ((∃ p, r.AsFusedMHASoftmaxRunner = some p ∧
          r.repr_ = .fusedMHASoftmax p ∧
          r.AsFusedMHAMaskRunner = none ∧ r.AsFusedMHABiasRunner = none ∧
          r.AsFusedMHABiasMaskRunner = none) ∨
       (∃ p, r.AsFusedMHAMaskRunner = some p ∧
          r.repr_ = .fusedMHAScaleMaskSoftmax p ∧
          r.AsFusedMHASoftmaxRunner = none ∧ r.AsFusedMHABiasRunner = none ∧
          r.AsFusedMHABiasMaskRunner = none) ∨
       (∃ p, r.AsFusedMHABiasRunner = some p ∧
          r.repr_ = .fusedMHAScaleBiasSoftmax p ∧
          r.AsFusedMHASoftmaxRunner = none ∧ r.AsFusedMHAMaskRunner = none ∧
          r.AsFusedMHABiasMaskRunner = none) ∨
       (∃ p, r.AsFusedMHABiasMaskRunner = some p ∧
          r.repr_ = .fusedMHAScaleBiasMaskSoftmax p ∧
          r.AsFusedMHASoftmaxRunner = none ∧ r.AsFusedMHAMaskRunner = none ∧
          r.AsFusedMHABiasRunner = none)) := by
  obtain ⟨it, ot, kind, fs, dr, sd, alg, l1, r1, r2, il2, o, mk, bs⟩ := config
  cases kind <;>
    first
      | exact ⟨_, rfl, Or.inl ⟨_, rfl, rfl, rfl, rfl, rfl⟩⟩
      | exact ⟨_, rfl, Or.inr (Or.inl ⟨_, rfl, rfl, rfl, rfl, rfl⟩)⟩
      | exact ⟨_, rfl, Or.inr (Or.inr (Or.inl ⟨_, rfl, rfl, rfl, rfl, rfl⟩))⟩
      | exact ⟨_, rfl, Or.inr (Or.inr (Or.inr ⟨_, rfl, rfl, rfl, rfl, rfl⟩))⟩

/-- Claim C6: the config-taking constructor never yields a monostate
runner: a monostate repr CHECK-fails the constructor's guard, and every
runner obtained from a config holds one of the four concrete plan
families. -/
theorem claim_C6 :
    checkNonMonostate (ofRepr .monostate) = none ∧
    ∀ config : GpufMHAConfig, ∃ r f,
      ofConfig config = some r ∧ r.repr_.family = some f := by
  refine ⟨rfl, fun config => ?_⟩
  obtain ⟨it, ot, kind, fs, dr, sd, alg, l1, r1, r2, il2, o, mk, bs⟩ := config
  cases kind <;> exact ⟨_, _, rfl, rfl⟩

/-- Claim C7: on the freshly default-constructed runner (monostate), the
four narrowing accessors and ToAlgorithmDesc all CHECK-fail (modelled as
`none`). -/
theorem claim_C7 :
    mkDefault.ToAlgorithmDesc = none ∧
    mkDefault.AsFusedMHASoftmaxRunner = none ∧
    mkDefault.AsFusedMHAMaskRunner = none ∧
    mkDefault.AsFusedMHABiasRunner = none ∧
    mkDefault.AsFusedMHABiasMaskRunner = none :=
  ⟨rfl, rfl, rfl, rfl, rfl⟩

/-- Claim C8: for every config, ToAlgorithmDesc on the runner built from
that config returns the config's algorithm field. -/
theorem claim_C8 (config : GpufMHAConfig) :
    ∃ r, ofConfig config = some r ∧ r.ToAlgorithmDesc = some config.algorithm := by
  obtain ⟨it, ot, kind, fs, dr, sd, alg, l1, r1, r2, il2, o, mk, bs⟩ := config
  cases kind <;> exact ⟨_, rfl, rfl⟩

/-- Claim C9: a runner holding one of the four concrete plan families is
unchanged (same held variant) by any sequence of the observable
operations (ToAlgorithmDesc and the four narrowing accessors). -/
theorem claim_C9 (r : FusedMultiHeadedAttentionRunner)
    (_hfam : r.repr_.family.isSome = true) (ops : List RunnerMethod) :
    r.callSequence ops = r ∧ (r.callSequence ops).repr_ = r.repr_ := by
  have hseq : r.callSequence ops = r := by
    induction ops with
    | nil => rfl
    | cons op rest ih =>
      have h1 : (r.callMethod op).2 = r := by cases op <;> rfl
      simp only [FusedMultiHeadedAttentionRunner.callSequence, List.foldl, h1] at ih ⊢
      exact ih
  exact ⟨hseq, by rw [hseq]⟩

/-- Witness for C9: a scale-mask runner and all five operations. -/
theorem claim_C9_witness :
    (ofRepr (.fusedMHAScaleMaskSoftmax ⟨⟨7⟩⟩)).repr_.family.isSome = true ∧
    callSequence (ofRepr (.fusedMHAScaleMaskSoftmax ⟨⟨7⟩⟩))
        [.toAlgorithmDesc, .asFusedMHASoftmaxRunner, .asFusedMHAMaskRunner,
         .asFusedMHABiasRunner, .asFusedMHABiasMaskRunner] =
      ofRepr (.fusedMHAScaleMaskSoftmax ⟨⟨7⟩⟩) :=
  ⟨rfl, (claim_C9 (ofRepr (.fusedMHAScaleMaskSoftmax ⟨⟨7⟩⟩)) rfl
    [.toAlgorithmDesc, .asFusedMHASoftmaxRunner, .asFusedMHAMaskRunner,
     .asFusedMHABiasRunner, .asFusedMHABiasMaskRunner]).1⟩

/-- Claim C10: the public constructor taking a Repr stores the variant
unconditionally — in particular it accepts the monostate Repr and
produces an uninitialized runner without any fatal check; the monostate
guard exists only on the config-taking construction path. -/
theorem claim_C10 :
    (ofRepr .monostate).repr_.holds_monostate = true ∧
    (∀ rr : FusedMultiHeadedAttentionRunner.Repr, (ofRepr rr).repr_ = rr) ∧
    (∀ config : GpufMHAConfig,
      ofConfig config = checkNonMonostate (ofRepr (CreateRunner config))) :=
  ⟨rfl, fun _ => rfl, fun _ => rfl⟩

/-- On success, `GpufMHAConfig.For` copies the descriptor's kind and maps
its optional shapes to optional tensor descriptors. -/
theorem For_ok_fields (desc : GpufMHADescriptor) (c : GpufMHAConfig)
    (hc : GpufMHAConfig.For desc = .ok c) :
    c.kind = desc.kind ∧ c.mask = desc.mask_shape.map TensorDescriptor.For ∧
      c.bias = desc.bias_shape.map TensorDescriptor.For := by
  simp only [GpufMHAConfig.For] at hc
  split at hc
  · exact Except.noConfusion hc
  split at hc
  · exact Except.noConfusion hc
  split at hc
  · exact Except.noConfusion hc
  split at hc
  · exact Except.noConfusion hc
  split at hc
  · exact Except.noConfusion hc
  · exact Except.noConfusion hc
  · exact Except.noConfusion hc
  · exact Except.noConfusion hc
  · injection hc with h
    subst h
    exact ⟨rfl, rfl, rfl⟩

/-- Claim C4: GpufMHAConfig.For fails when a required mask (bias) shape is
absent, fails when an unneeded mask (bias) shape is present, and on
success the produced Config is complete: its kind is the descriptor's and
its optional descriptors are present exactly when the kind requires
them. -/
theorem claim_C4 (desc : GpufMHADescriptor) :
    (desc.kind.requiresMask = true → desc.mask_shape = none →
      ∃ e, GpufMHAConfig.For desc = .error e) ∧
    (desc.kind.requiresMask = false → ∀ s, desc.mask_shape = some s →
      ∃ e, GpufMHAConfig.For desc = .error e) ∧
    (desc.kind.requiresBias = true → desc.bias_shape = none →
      ∃ e, GpufMHAConfig.For desc = .error e) ∧
    (desc.kind.requiresBias = false → ∀ s, desc.bias_shape = some s →
      ∃ e, GpufMHAConfig.For desc = .error e) ∧
    (∀ c, GpufMHAConfig.For desc = .ok c →
      c.kind = desc.kind ∧ c.mask.isSome = desc.kind.requiresMask ∧
        c.bias.isSome = desc.kind.requiresBias) := by
  refine ⟨?_, ?_, ?_, ?_, ?_⟩
  · intro h1 h2
    simp [GpufMHAConfig.For, h1, h2]
  · intro h1 s hs
    simp [GpufMHAConfig.For, h1, hs]
  · intro h1 h2
    rcases hm : desc.mask_shape with _ | s <;> cases hrm : desc.kind.requiresMask
    · simp [GpufMHAConfig.For, h1, h2, hm, hrm]
    · simp [GpufMHAConfig.For, hm, hrm]
    · simp [GpufMHAConfig.For, h1, h2, hm, hrm]
    · simp [GpufMHAConfig.For, h1, h2, hm, hrm]
  · intro h1 s hs
    rcases hm : desc.mask_shape with _ | t <;> cases hrm : desc.kind.requiresMask
    · simp [GpufMHAConfig.For, h1, hs, hm, hrm]
    · simp [GpufMHAConfig.For, hm, hrm]
    · simp [GpufMHAConfig.For, h1, hs, hm, hrm]
    · simp [GpufMHAConfig.For, h1, hs, hm, hrm]
  · intro c hc
    have hmask : desc.mask_shape.isSome = desc.kind.requiresMask := by
      rcases hms : desc.mask_shape with _ | s <;> cases hrm : desc.kind.requiresMask <;>
        first
          | (simp [hms, hrm]; done)
          | (exfalso; revert hc; simp [GpufMHAConfig.For, hms, hrm])
    have hbias : desc.bias_shape.isSome = desc.kind.requiresBias := by
      rcases hbs : desc.bias_shape with _ | t <;> cases hrb : desc.kind.requiresBias <;>
        rcases hms : desc.mask_shape with _ | s <;> cases hrm : desc.kind.requiresMask <;>
        first
          | (simp [hbs, hrb]; done)
          | (exfalso; revert hc; simp [GpufMHAConfig.For, hms, hrm, hbs, hrb])
    obtain ⟨hk, hm2, hb2⟩ := For_ok_fields desc c hc
    exact ⟨hk, by simp [hm2, hmask], by simp [hb2, hbias]⟩

/-- Witness for C4: mask missing, mask unexpected, bias missing, bias
unexpected, and the successful kSoftmax descriptor. -/
theorem claim_C4_witness :
    (∃ e, GpufMHAConfig.For (sampleDescriptor .kScaleMaskSoftmax none none) = .error e) ∧
    (∃ e, GpufMHAConfig.For (sampleDescriptor .kSoftmax (some sampleShape) none) = .error e) ∧
    (∃ e, GpufMHAConfig.For (sampleDescriptor .kScaleBiasSoftmax none none) = .error e) ∧
    (∃ e, GpufMHAConfig.For (sampleDescriptor .kSoftmax none (some sampleShape)) = .error e) ∧
    (sampleOkConfig.kind = (sampleDescriptor .kSoftmax none none).kind ∧
      sampleOkConfig.mask.isSome = (sampleDescriptor .kSoftmax none none).kind.requiresMask ∧
      sampleOkConfig.bias.isSome = (sampleDescriptor .kSoftmax none none).kind.requiresBias) :=
  ⟨(claim_C4 _).1 rfl rfl,
   (claim_C4 _).2.1 rfl sampleShape rfl,
   (claim_C4 _).2.2.1 rfl rfl,
   (claim_C4 _).2.2.2.1 rfl sampleShape rfl,
   (claim_C4 _).2.2.2.2 sampleOkConfig rfl⟩

/-- Claim C5: GpufMHAParams.For succeeds on a buffer set matching the
config's variant, with the resulting optional buffer presence mirroring
the config's optional descriptor presence, and fails with a recoverable
error on any mismatched set. -/
theorem claim_C5 (config : GpufMHAConfig) (l1 r1 r2 out m b : DeviceMemoryBase) :
    (m.is_null = config.mask.isNone → b.is_null = config.bias.isNone →
      ∃ p, GpufMHAParams.For config l1 r1 r2 out m b = .ok p ∧
        p.config = config ∧
        p.mask_buffer.isSome = config.mask.isSome ∧
        p.bias_buffer.isSome = config.bias.isSome) ∧
    (¬(m.is_null = config.mask.isNone ∧ b.is_null = config.bias.isNone) →
      ∃ e, GpufMHAParams.For config l1 r1 r2 out m b = .error e) := by
  constructor
  · intro hm hb
    rcases hmk : config.mask with _ | md <;> rcases hbs : config.bias with _ | bd <;>
      rw [hmk] at hm <;> rw [hbs] at hb <;>
      simp only [Option.isNone_none, Option.isNone_some] at hm hb
    · exact ⟨⟨config, l1, r1, r2, out, none, none⟩,
        by simp [GpufMHAParams.For, hmk, hbs, hm, hb], rfl, by simp [hmk], by simp [hbs]⟩
    · exact ⟨⟨config, l1, r1, r2, out, none, some b⟩,
        by simp [GpufMHAParams.For, hmk, hbs, hm, hb], rfl, by simp [hmk], by simp [hbs]⟩
    · exact ⟨⟨config, l1, r1, r2, out, some m, none⟩,
        by simp [GpufMHAParams.For, hmk, hbs, hm, hb], rfl, by simp [hmk], by simp [hbs]⟩
    · exact ⟨⟨config, l1, r1, r2, out, some m, some b⟩,
        by simp [GpufMHAParams.For, hmk, hbs, hm, hb], rfl, by simp [hmk], by simp [hbs]⟩
  · intro hmis
    rcases hmk : config.mask with _ | md <;> rcases hbs : config.bias with _ | bd <;>
      cases hmn : m.is_null <;> cases hbn : b.is_null <;>
      simp_all [GpufMHAParams.For]

/-- Witness for C5: a maskless/biasless config with a matching (both
null) buffer set, and the same config with a mismatched non-null bias
buffer. -/
theorem claim_C5_witness :
    (∃ p, GpufMHAParams.For (sampleConfig .kSoftmax)
          someBuf someBuf someBuf someBuf nullBuf nullBuf = .ok p ∧
        p.config = sampleConfig .kSoftmax ∧
        p.mask_buffer.isSome = (sampleConfig .kSoftmax).mask.isSome ∧
        p.bias_buffer.isSome = (sampleConfig .kSoftmax).bias.isSome) ∧
    (∃ e, GpufMHAParams.For (sampleConfig .kSoftmax)
        someBuf someBuf someBuf someBuf nullBuf someBuf = .error e) :=
  ⟨(claim_C5 _ _ _ _ _ _ _).1 rfl rfl,
   (claim_C5 _ _ _ _ _ _ _).2 (by decide)⟩

end XlaGpu
